import Mathlib

/-!
Threshold probe (`profile/gofrendi/alpine-and-glibc/main.go`)

A shallow embedding of the cgo program: the C function `test_mallopt` and the
Go function `main`, run on an explicit process state.  The host C library
(`mallopt`, the constant `M_MMAP_THRESHOLD` from `<malloc.h>`, and the
buffering of the C stream `stdout`) is not part of the repository and is taken
as a parameter.

The program writes to standard output along two paths.  `fmt.Println` writes
to file descriptor 1 at once.  `printf` puts its text into the buffer of the C
stream `stdout`; the program never calls `fflush` or `setvbuf`, and a Go
process leaves through `exit_group` without running the C library's exit
handlers, so what is still in that buffer when `main` returns is never
written.  The state therefore keeps apart the texts handed to the two streams
in program order (`stdout`), the writes that reached the descriptor (`fd1`)
and the text pending in the C buffer (`cbuf`).
-/

set_option maxRecDepth 100000

namespace AlpineGlibc

/-! ## Process state -/

/-- One observable action of the process, in program order. -/
inductive Event where
  /-- A text is handed to a standard-output stream (`printf`, `fmt.Println`). -/
  | stdoutWrite (bytes : String)
  /-- The C library's `mallopt(param, value)` is called. -/
  | malloptCall (param : Int) (value : Int)
  deriving DecidableEq, Repr

/-- The process state the program runs on. -/
structure Process where
  /-- Texts handed to the standard-output streams (`printf` to the C stream
  `stdout`, `fmt.Println` to `os.Stdout`), in program order. -/
  stdout : List String
  /-- Writes to standard error, in program order. -/
  stderr : List String
  /-- Command-line arguments. -/
  args : List String
  /-- Environment variables. -/
  env : List (String × String)
  /-- Every text handed to a standard-output stream and every native call, in
  program order. -/
  trace : List Event
  /-- Writes that reached file descriptor 1, in the order they reached it. -/
  fd1 : List String
  /-- Text pending in the buffer of the C stream `stdout`. -/
  cbuf : String
  deriving DecidableEq, Repr

/-- The ways a Go process stops other than by `main` returning. -/
inductive Abort where
  | osExit (code : Nat)
  | goPanic
  deriving DecidableEq, Repr

/-- Statements of the program: they update the process state, or abort. -/
abbrev Proc := StateT Process (Except Abort)

/-- How the C library buffers its stream `stdout`: unbuffered only when forced
(`setvbuf`, `stdbuf -o0`), line-buffered when descriptor 1 is a terminal, fully
buffered when it is a pipe or a file. -/
inductive Buffering where
  | unbuffered
  | lineBuffered
  | fullyBuffered
  deriving DecidableEq, Repr

/-- The host C library: the part of `<malloc.h>` and `<stdio.h>` the program
uses. -/
structure Libc where
  /-- The value of the macro `M_MMAP_THRESHOLD`. -/
  M_MMAP_THRESHOLD : Int
  /-- The function `int mallopt(int param, int value)`: the status it returns. -/
  mallopt : Int → Int → Int
  /-- The buffering of the C stream `stdout` in this run. -/
  stdoutBuffering : Buffering

/-! ## Primitives -/

/-- Record that `bytes` were handed to a standard-output stream. -/
def logStdout (bytes : String) (p : Process) : Process :=
  Process.mk (p.stdout ++ [bytes]) p.stderr p.args p.env
    (p.trace ++ [Event.stdoutWrite bytes]) p.fd1 p.cbuf

/-- A `write` of `bytes` to file descriptor 1. -/
def fdWrite (bytes : String) (p : Process) : Process :=
  Process.mk p.stdout p.stderr p.args p.env p.trace (p.fd1 ++ [bytes]) p.cbuf

/-- Split a text after its last newline: what comes up to and with that
newline, and what follows it. -/
def splitAfterLastNewline : List Char → List Char × List Char
  | [] => ([], [])
  | c :: cs =>
    if (splitAfterLastNewline cs).1 = [] then
      if c = '\n' then ([c], (splitAfterLastNewline cs).2)
      else ([], c :: (splitAfterLastNewline cs).2)
    else (c :: (splitAfterLastNewline cs).1, (splitAfterLastNewline cs).2)

/-- What a C stream writes out of its pending text, and what it keeps: all of
it when unbuffered, the text through the last newline when line-buffered,
nothing when fully buffered (the program hands `printf` 99 bytes at most,
fewer than a stdio buffer holds, so the buffer never fills). -/
def flushPoint (b : Buffering) (pending : List Char) : List Char × List Char :=
  match b with
  | .unbuffered => (pending, [])
  | .lineBuffered => splitAfterLastNewline pending
  | .fullyBuffered => ([], pending)

/-- Put `text` into the C stream `stdout`: it joins the pending text, and the
part the buffering lets through is written to file descriptor 1. -/
def cStreamPut (b : Buffering) (text : String) (p : Process) : Process :=
  Process.mk p.stdout p.stderr p.args p.env p.trace
    (if (flushPoint b (p.cbuf ++ text).data).1 = [] then p.fd1
      else p.fd1 ++ [String.mk (flushPoint b (p.cbuf ++ text).data).1])
    (String.mk (flushPoint b (p.cbuf ++ text).data).2)

/-- C `printf(format)` for a format string without conversion specifications
(every format string of the program is one): the string goes, as it is, into
the C stream `stdout`. -/
def printf (L : Libc) (format : String) : Proc Unit :=
  modify fun p => cStreamPut L.stdoutBuffering format (logStdout format p)

/-- Go `fmt.Println(a)` for one string operand: the operand and a newline are
written to file descriptor 1 at once, past the C stream. -/
def Println (a : String) : Proc Unit :=
  modify fun p => fdWrite (a ++ "\n") (logStdout (a ++ "\n") p)

/-- Wrap an integer to the range of a 32-bit C `int`. -/
def wrapInt32 (x : Int) : Int :=
  (x + 2 ^ 31) % 2 ^ 32 - 2 ^ 31

/-- Multiplication of two C `int` values. -/
def cMul (a b : Int) : Int :=
  wrapInt32 (a * b)

/-- Record a call of `mallopt(param, value)`. -/
def logCall (param value : Int) (p : Process) : Process :=
  Process.mk p.stdout p.stderr p.args p.env
    (p.trace ++ [Event.malloptCall param value]) p.fd1 p.cbuf

/-- A call of the C library's `mallopt(param, value)`: the call is recorded and
the library's status is returned. -/
def callMallopt (L : Libc) (param value : Int) : Proc Int := do
  modify fun p => logCall param value p
  pure (L.mallopt param value)

/-! ## The program -/

/-- The C function `test_mallopt` of the cgo preamble. -/
def test_mallopt (L : Libc) : Proc Unit := do
  printf L "Attempting to set M_MMAP_THRESHOLD in glibc...\n"
  if (← callMallopt L L.M_MMAP_THRESHOLD (cMul 64 1024)) == 0 then
    printf L "Failed to set M_MMAP_THRESHOLD (glibc-specific)\n"
  else
    printf L "Successfully set M_MMAP_THRESHOLD\n"
  printf L "Okey"

/-- The Go function `main`. -/
def main (L : Libc) : Proc Unit := do
  Println "Testing mallopt function..."
  test_mallopt L
  Println "Done"

/-! ## Running the program -/

/-- The state of a process at its start: nothing written yet, nothing pending. -/
def initial (args : List String) (env : List (String × String)) : Process :=
  Process.mk [] [] args env [] [] ""

/-- Run `main` from a state: the state when `main` returns, or the way the
process aborted.  After `main` returns the process leaves without flushing the
C stream, so `fd1` of this state is all that standard output receives. -/
def runMain (L : Libc) (p : Process) : Except Abort Process :=
  ((main L).run p).map Prod.snd

/-- The exit status of the process: 0 when `main` returns, the code given to
`os.Exit`, 2 after a panic. -/
def exitStatus : Except Abort Process → Nat
  | .ok _ => 0
  | .error (.osExit code) => code
  | .error .goPanic => 2

/-- The texts a run from a fresh process hands to its standard-output streams,
in program order; none when the process aborted. -/
def handedWrites (L : Libc) (args : List String) (env : List (String × String)) :
    List String :=
  match runMain L (initial args env) with
  | .ok p => p.stdout
  | .error _ => []

/-- The writes that reach standard output (file descriptor 1) in a run from a
fresh process; none when the process aborted. -/
def outputWrites (L : Libc) (args : List String) (env : List (String × String)) :
    List String :=
  match runMain L (initial args env) with
  | .ok p => p.fd1
  | .error _ => []

/-- The trace of a run from a fresh process. -/
def runTrace (L : Libc) (args : List String) (env : List (String × String)) :
    List Event :=
  match runMain L (initial args env) with
  | .ok p => p.trace
  | .error _ => []

/-- The standard output of a run from a fresh process, as one string. -/
def output (L : Libc) (args : List String) (env : List (String × String)) : String :=
  String.join (outputWrites L args env)

/-- A C library whose `mallopt` returns the status `r` whatever it is given and
whose stream `stdout` is buffered as `b` says. -/
def stdioLibc (b : Buffering) (threshold r : Int) : Libc :=
  Libc.mk threshold (fun _ _ => r) b

/-- A C library whose `mallopt` returns the status `r` whatever it is given,
with `stdout` fully buffered, as it is on a pipe or a file. -/
def constLibc (threshold r : Int) : Libc :=
  stdioLibc Buffering.fullyBuffered threshold r

/-- Run `test_mallopt` alone from a state. -/
def runTestMallopt (L : Libc) (p : Process) : Except Abort Process :=
  ((test_mallopt L).run p).map Prod.snd

/-! ## Observations on the output -/

/-- The texts handed to the standard-output streams between `p` and `q`. -/
def appended (p q : Process) : List String :=
  q.stdout.drop p.stdout.length

/-- The writes that reached file descriptor 1 between `p` and `q`. -/
def appendedFd1 (p q : Process) : List String :=
  q.fd1.drop p.fd1.length

/-- Drop the line terminator at the end of a text, when there is one. -/
def stripNewline : List Char → List Char
  | [] => []
  | c :: cs => if c = '\n' ∧ cs = [] then [] else c :: stripNewline cs

/-- The message of a write: its text without the line terminator. -/
def message (w : String) : String :=
  String.mk (stripNewline w.data)

/-- The number of positions of `s` at which `pat` occurs. -/
def occurrences (pat : List Char) : List Char → Nat
  | [] => if pat = [] then 1 else 0
  | c :: cs => (if pat.isPrefixOf (c :: cs) then 1 else 0) + occurrences pat cs

/-- Whether `pat` occurs in `s`. -/
def containsText (pat s : String) : Bool :=
  0 < occurrences pat.data s.data

/-- The pieces of a text between its newlines (one more than it has newlines). -/
def segments : List Char → List (List Char)
  | [] => [[]]
  | c :: cs =>
    if c = '\n' then [] :: segments cs
    else
      match segments cs with
      | [] => [[c]]
      | s :: ss => (c :: s) :: ss

/-- The newline-terminated lines of a text, without their terminators. -/
def terminatedLines (s : String) : List String :=
  ((segments s.data).dropLast).map String.mk

/-- What follows the last newline of a text. -/
def unterminatedTail (s : String) : String :=
  String.mk ((segments s.data).getLastD [])

/-- The text handed to the standard-output streams before the first call of
`mallopt`. -/
def textBeforeCall : List Event → String
  | [] => ""
  | Event.stdoutWrite bytes :: es => bytes ++ textBeforeCall es
  | Event.malloptCall _ _ :: _ => ""

/-- The calls of `mallopt` in a trace, as (parameter, value) pairs, in order. -/
def malloptCalls : List Event → List (Int × Int)
  | [] => []
  | Event.stdoutWrite _ :: es => malloptCalls es
  | Event.malloptCall param value :: es => (param, value) :: malloptCalls es

/-! ## Basic facts -/

/-- The value expression `64 * 1024` of the call, as a C `int`. -/
theorem cMul_64_1024 : cMul 64 1024 = 65536 := by
  decide

/-- The texts one call of `test_mallopt` hands to `printf` are 99 bytes at
most, fewer than the 256 bytes that ISO C gives a stdio buffer at least. -/
theorem printf_text_fits_buffer :
    ("Attempting to set M_MMAP_THRESHOLD in glibc...\n" ++
        "Failed to set M_MMAP_THRESHOLD (glibc-specific)\n" ++ "Okey").length = 99 ∧
    ("Attempting to set M_MMAP_THRESHOLD in glibc...\n" ++
        "Successfully set M_MMAP_THRESHOLD\n" ++ "Okey").length = 85 := by
  decide

/-- A `printf` step only appends to what reached file descriptor 1. -/
theorem printf_step_fd1 (b : Buffering) (text : String) (p : Process) :
    p.fd1 <+: (cStreamPut b text (logStdout text p)).fd1 := by
  unfold cStreamPut
  dsimp only
  split
  · exact List.prefix_refl _
  · exact List.prefix_append _ _

/-- A `Println` step only appends to what reached file descriptor 1. -/
theorem println_step_fd1 (text : String) (p : Process) :
    p.fd1 <+: (fdWrite text (logStdout text p)).fd1 :=
  List.prefix_append _ _

/-- The steps of `main`, whatever their texts are, only append to what reached
file descriptor 1. -/
theorem main_steps_fd1 (b : Buffering) (param value : Int)
    (t1 t2 t3 t4 t5 : String) (p : Process) :
    p.fd1 <+:
      (fdWrite t5 (logStdout t5
        (cStreamPut b t4 (logStdout t4
          (cStreamPut b t3 (logStdout t3
            (logCall param value
              (cStreamPut b t2 (logStdout t2
                (fdWrite t1 (logStdout t1 p))))))))))).fd1 := by
  have s1 := println_step_fd1 t1 p
  have s2 := printf_step_fd1 b t2 (fdWrite t1 (logStdout t1 p))
  have s3 := printf_step_fd1 b t3
    (logCall param value (cStreamPut b t2 (logStdout t2 (fdWrite t1 (logStdout t1 p)))))
  have s4 := printf_step_fd1 b t4
    (cStreamPut b t3 (logStdout t3
      (logCall param value (cStreamPut b t2 (logStdout t2 (fdWrite t1 (logStdout t1 p)))))))
  have s5 := println_step_fd1 t5
    (cStreamPut b t4 (logStdout t4
      (cStreamPut b t3 (logStdout t3
        (logCall param value (cStreamPut b t2 (logStdout t2 (fdWrite t1 (logStdout t1 p)))))))))
  exact s1.trans (s2.trans (s3.trans (s4.trans s5)))

/-- The run of `main` from any state, when the library reports failure. -/
theorem runMain_zero (L : Libc) (p : Process)
    (h : L.mallopt L.M_MMAP_THRESHOLD 65536 = 0) :
    runMain L p = .ok
      (fdWrite "Done\n" (logStdout "Done\n"
        (cStreamPut L.stdoutBuffering "Okey" (logStdout "Okey"
          (cStreamPut L.stdoutBuffering
            "Failed to set M_MMAP_THRESHOLD (glibc-specific)\n"
            (logStdout "Failed to set M_MMAP_THRESHOLD (glibc-specific)\n"
              (logCall L.M_MMAP_THRESHOLD 65536
                (cStreamPut L.stdoutBuffering
                  "Attempting to set M_MMAP_THRESHOLD in glibc...\n"
                  (logStdout "Attempting to set M_MMAP_THRESHOLD in glibc...\n"
                    (fdWrite "Testing mallopt function...\n"
                      (logStdout "Testing mallopt function...\n" p))))))))))) := by
  simp [runMain, main, test_mallopt, Println, printf, callMallopt,
    cMul_64_1024, h, StateT.run, bind, StateT.bind, modify, modifyGet,
    MonadStateOf.modifyGet, StateT.modifyGet, pure, StateT.pure, Except.pure,
    Except.bind, Except.map, Functor.map]

/-- The run of `test_mallopt` from any state, when the library reports failure. -/
theorem runTestMallopt_zero (L : Libc) (p : Process)
    (h : L.mallopt L.M_MMAP_THRESHOLD 65536 = 0) :
    runTestMallopt L p = .ok
      (cStreamPut L.stdoutBuffering "Okey" (logStdout "Okey"
        (cStreamPut L.stdoutBuffering
          "Failed to set M_MMAP_THRESHOLD (glibc-specific)\n"
          (logStdout "Failed to set M_MMAP_THRESHOLD (glibc-specific)\n"
            (logCall L.M_MMAP_THRESHOLD 65536
              (cStreamPut L.stdoutBuffering
                "Attempting to set M_MMAP_THRESHOLD in glibc...\n"
                (logStdout "Attempting to set M_MMAP_THRESHOLD in glibc...\n" p))))))) := by
  simp [runTestMallopt, test_mallopt, printf, callMallopt,
    cMul_64_1024, h, StateT.run, bind, StateT.bind, modify, modifyGet,
    MonadStateOf.modifyGet, StateT.modifyGet, pure, StateT.pure, Except.pure,
    Except.bind, Except.map, Functor.map]

/-- The texts a fresh run hands to its streams when the library reports failure. -/
theorem handedWrites_zero (L : Libc) (args : List String) (env : List (String × String))
    (h : L.mallopt L.M_MMAP_THRESHOLD 65536 = 0) :
    handedWrites L args env = ["Testing mallopt function...\n",
      "Attempting to set M_MMAP_THRESHOLD in glibc...\n",
      "Failed to set M_MMAP_THRESHOLD (glibc-specific)\n", "Okey", "Done\n"] := by
  simp [handedWrites, runMain_zero L _ h, initial, logStdout, fdWrite, cStreamPut, logCall]

/-- The trace of a fresh run when the library reports failure. -/
theorem runTrace_zero (L : Libc) (args : List String) (env : List (String × String))
    (h : L.mallopt L.M_MMAP_THRESHOLD 65536 = 0) :
    runTrace L args env = [Event.stdoutWrite "Testing mallopt function...\n",
      Event.stdoutWrite "Attempting to set M_MMAP_THRESHOLD in glibc...\n",
      Event.malloptCall L.M_MMAP_THRESHOLD 65536,
      Event.stdoutWrite "Failed to set M_MMAP_THRESHOLD (glibc-specific)\n",
      Event.stdoutWrite "Okey", Event.stdoutWrite "Done\n"] := by
  simp [runTrace, runMain_zero L _ h, initial, logStdout, fdWrite, cStreamPut, logCall]

/-- What reaches standard output in a fresh run: stream `stdout` unbuffered, the
library reports failure. -/
theorem outputWrites_unbuffered_zero (L : Libc) (args : List String) (env : List (String × String))
    (hb : L.stdoutBuffering = Buffering.unbuffered)
    (h : L.mallopt L.M_MMAP_THRESHOLD 65536 = 0) :
    outputWrites L args env = ["Testing mallopt function...\n",
      "Attempting to set M_MMAP_THRESHOLD in glibc...\n",
      "Failed to set M_MMAP_THRESHOLD (glibc-specific)\n", "Okey", "Done\n"] := by
  rw [outputWrites, runMain_zero L _ h, hb]
  rfl

/-- The standard output of a fresh run, as one string: stream `stdout`
unbuffered, the library reports failure. -/
theorem output_unbuffered_zero (L : Libc) (args : List String) (env : List (String × String))
    (hb : L.stdoutBuffering = Buffering.unbuffered)
    (h : L.mallopt L.M_MMAP_THRESHOLD 65536 = 0) :
    output L args env = "Testing mallopt function...\nAttempting to set M_MMAP_THRESHOLD in glibc...\nFailed to set M_MMAP_THRESHOLD (glibc-specific)\nOkeyDone\n" := by
  rw [output, outputWrites_unbuffered_zero L args env hb h]
  rfl

/-- What reaches standard output in a fresh run: stream `stdout` lineBuffered, the
library reports failure. -/
theorem outputWrites_lineBuffered_zero (L : Libc) (args : List String) (env : List (String × String))
    (hb : L.stdoutBuffering = Buffering.lineBuffered)
    (h : L.mallopt L.M_MMAP_THRESHOLD 65536 = 0) :
    outputWrites L args env = ["Testing mallopt function...\n",
      "Attempting to set M_MMAP_THRESHOLD in glibc...\n",
      "Failed to set M_MMAP_THRESHOLD (glibc-specific)\n", "Done\n"] := by
  rw [outputWrites, runMain_zero L _ h, hb]
  rfl

/-- The standard output of a fresh run, as one string: stream `stdout`
lineBuffered, the library reports failure. -/
theorem output_lineBuffered_zero (L : Libc) (args : List String) (env : List (String × String))
    (hb : L.stdoutBuffering = Buffering.lineBuffered)
    (h : L.mallopt L.M_MMAP_THRESHOLD 65536 = 0) :
    output L args env = "Testing mallopt function...\nAttempting to set M_MMAP_THRESHOLD in glibc...\nFailed to set M_MMAP_THRESHOLD (glibc-specific)\nDone\n" := by
  rw [output, outputWrites_lineBuffered_zero L args env hb h]
  rfl

/-- What reaches standard output in a fresh run: stream `stdout` fullyBuffered, the
library reports failure. -/
theorem outputWrites_fullyBuffered_zero (L : Libc) (args : List String) (env : List (String × String))
    (hb : L.stdoutBuffering = Buffering.fullyBuffered)
    (h : L.mallopt L.M_MMAP_THRESHOLD 65536 = 0) :
    outputWrites L args env = ["Testing mallopt function...\n", "Done\n"] := by
  rw [outputWrites, runMain_zero L _ h, hb]
  rfl

/-- The standard output of a fresh run, as one string: stream `stdout`
fullyBuffered, the library reports failure. -/
theorem output_fullyBuffered_zero (L : Libc) (args : List String) (env : List (String × String))
    (hb : L.stdoutBuffering = Buffering.fullyBuffered)
    (h : L.mallopt L.M_MMAP_THRESHOLD 65536 = 0) :
    output L args env = "Testing mallopt function...\nDone\n" := by
  rw [output, outputWrites_fullyBuffered_zero L args env hb h]
  rfl

/-- The run of `main` from any state, when the library reports success. -/
theorem runMain_nonzero (L : Libc) (p : Process)
    (h : L.mallopt L.M_MMAP_THRESHOLD 65536 ≠ 0) :
    runMain L p = .ok
      (fdWrite "Done\n" (logStdout "Done\n"
        (cStreamPut L.stdoutBuffering "Okey" (logStdout "Okey"
          (cStreamPut L.stdoutBuffering
            "Successfully set M_MMAP_THRESHOLD\n"
            (logStdout "Successfully set M_MMAP_THRESHOLD\n"
              (logCall L.M_MMAP_THRESHOLD 65536
                (cStreamPut L.stdoutBuffering
                  "Attempting to set M_MMAP_THRESHOLD in glibc...\n"
                  (logStdout "Attempting to set M_MMAP_THRESHOLD in glibc...\n"
                    (fdWrite "Testing mallopt function...\n"
                      (logStdout "Testing mallopt function...\n" p))))))))))) := by
  simp [runMain, main, test_mallopt, Println, printf, callMallopt,
    cMul_64_1024, h, StateT.run, bind, StateT.bind, modify, modifyGet,
    MonadStateOf.modifyGet, StateT.modifyGet, pure, StateT.pure, Except.pure,
    Except.bind, Except.map, Functor.map]

/-- The run of `test_mallopt` from any state, when the library reports success. -/
theorem runTestMallopt_nonzero (L : Libc) (p : Process)
    (h : L.mallopt L.M_MMAP_THRESHOLD 65536 ≠ 0) :
    runTestMallopt L p = .ok
      (cStreamPut L.stdoutBuffering "Okey" (logStdout "Okey"
        (cStreamPut L.stdoutBuffering
          "Successfully set M_MMAP_THRESHOLD\n"
          (logStdout "Successfully set M_MMAP_THRESHOLD\n"
            (logCall L.M_MMAP_THRESHOLD 65536
              (cStreamPut L.stdoutBuffering
                "Attempting to set M_MMAP_THRESHOLD in glibc...\n"
                (logStdout "Attempting to set M_MMAP_THRESHOLD in glibc...\n" p))))))) := by
  simp [runTestMallopt, test_mallopt, printf, callMallopt,
    cMul_64_1024, h, StateT.run, bind, StateT.bind, modify, modifyGet,
    MonadStateOf.modifyGet, StateT.modifyGet, pure, StateT.pure, Except.pure,
    Except.bind, Except.map, Functor.map]

/-- The texts a fresh run hands to its streams when the library reports success. -/
theorem handedWrites_nonzero (L : Libc) (args : List String) (env : List (String × String))
    (h : L.mallopt L.M_MMAP_THRESHOLD 65536 ≠ 0) :
    handedWrites L args env = ["Testing mallopt function...\n",
      "Attempting to set M_MMAP_THRESHOLD in glibc...\n",
      "Successfully set M_MMAP_THRESHOLD\n", "Okey", "Done\n"] := by
  simp [handedWrites, runMain_nonzero L _ h, initial, logStdout, fdWrite, cStreamPut, logCall]

/-- The trace of a fresh run when the library reports success. -/
theorem runTrace_nonzero (L : Libc) (args : List String) (env : List (String × String))
    (h : L.mallopt L.M_MMAP_THRESHOLD 65536 ≠ 0) :
    runTrace L args env = [Event.stdoutWrite "Testing mallopt function...\n",
      Event.stdoutWrite "Attempting to set M_MMAP_THRESHOLD in glibc...\n",
      Event.malloptCall L.M_MMAP_THRESHOLD 65536,
      Event.stdoutWrite "Successfully set M_MMAP_THRESHOLD\n",
      Event.stdoutWrite "Okey", Event.stdoutWrite "Done\n"] := by
  simp [runTrace, runMain_nonzero L _ h, initial, logStdout, fdWrite, cStreamPut, logCall]

/-- What reaches standard output in a fresh run: stream `stdout` unbuffered, the
library reports success. -/
theorem outputWrites_unbuffered_nonzero (L : Libc) (args : List String) (env : List (String × String))
    (hb : L.stdoutBuffering = Buffering.unbuffered)
    (h : L.mallopt L.M_MMAP_THRESHOLD 65536 ≠ 0) :
    outputWrites L args env = ["Testing mallopt function...\n",
      "Attempting to set M_MMAP_THRESHOLD in glibc...\n",
      "Successfully set M_MMAP_THRESHOLD\n", "Okey", "Done\n"] := by
  rw [outputWrites, runMain_nonzero L _ h, hb]
  rfl

/-- The standard output of a fresh run, as one string: stream `stdout`
unbuffered, the library reports success. -/
theorem output_unbuffered_nonzero (L : Libc) (args : List String) (env : List (String × String))
    (hb : L.stdoutBuffering = Buffering.unbuffered)
    (h : L.mallopt L.M_MMAP_THRESHOLD 65536 ≠ 0) :
    output L args env = "Testing mallopt function...\nAttempting to set M_MMAP_THRESHOLD in glibc...\nSuccessfully set M_MMAP_THRESHOLD\nOkeyDone\n" := by
  rw [output, outputWrites_unbuffered_nonzero L args env hb h]
  rfl

/-- What reaches standard output in a fresh run: stream `stdout` lineBuffered, the
library reports success. -/
theorem outputWrites_lineBuffered_nonzero (L : Libc) (args : List String) (env : List (String × String))
    (hb : L.stdoutBuffering = Buffering.lineBuffered)
    (h : L.mallopt L.M_MMAP_THRESHOLD 65536 ≠ 0) :
    outputWrites L args env = ["Testing mallopt function...\n",
      "Attempting to set M_MMAP_THRESHOLD in glibc...\n",
      "Successfully set M_MMAP_THRESHOLD\n", "Done\n"] := by
  rw [outputWrites, runMain_nonzero L _ h, hb]
  rfl

/-- The standard output of a fresh run, as one string: stream `stdout`
lineBuffered, the library reports success. -/
theorem output_lineBuffered_nonzero (L : Libc) (args : List String) (env : List (String × String))
    (hb : L.stdoutBuffering = Buffering.lineBuffered)
    (h : L.mallopt L.M_MMAP_THRESHOLD 65536 ≠ 0) :
    output L args env = "Testing mallopt function...\nAttempting to set M_MMAP_THRESHOLD in glibc...\nSuccessfully set M_MMAP_THRESHOLD\nDone\n" := by
  rw [output, outputWrites_lineBuffered_nonzero L args env hb h]
  rfl

/-- What reaches standard output in a fresh run: stream `stdout` fullyBuffered, the
library reports success. -/
theorem outputWrites_fullyBuffered_nonzero (L : Libc) (args : List String) (env : List (String × String))
    (hb : L.stdoutBuffering = Buffering.fullyBuffered)
    (h : L.mallopt L.M_MMAP_THRESHOLD 65536 ≠ 0) :
    outputWrites L args env = ["Testing mallopt function...\n", "Done\n"] := by
  rw [outputWrites, runMain_nonzero L _ h, hb]
  rfl

/-- The standard output of a fresh run, as one string: stream `stdout`
fullyBuffered, the library reports success. -/
theorem output_fullyBuffered_nonzero (L : Libc) (args : List String) (env : List (String × String))
    (hb : L.stdoutBuffering = Buffering.fullyBuffered)
    (h : L.mallopt L.M_MMAP_THRESHOLD 65536 ≠ 0) :
    output L args env = "Testing mallopt function...\nDone\n" := by
  rw [output, outputWrites_fullyBuffered_nonzero L args env hb h]
  rfl

/-! ## The claims -/

/-- C1: in `test_mallopt`, when the status `r` of the tuning call is zero the
result line written is the failure line and the success line is not written;
when `r` is not zero the result line written is the success line and the
failure line is not written. -/
theorem test_mallopt_result_line (L : Libc) (p : Process) (r : Int)
    (hr : L.mallopt L.M_MMAP_THRESHOLD 65536 = r) :
    ∃ q, runTestMallopt L p = .ok q ∧
      (r = 0 →
        appended p q = ["Attempting to set M_MMAP_THRESHOLD in glibc...\n", "Failed to set M_MMAP_THRESHOLD (glibc-specific)\n", "Okey"] ∧
        "Failed to set M_MMAP_THRESHOLD (glibc-specific)\n" ∈ appended p q ∧
        "Successfully set M_MMAP_THRESHOLD\n" ∉ appended p q) ∧
      (r ≠ 0 →
        appended p q = ["Attempting to set M_MMAP_THRESHOLD in glibc...\n", "Successfully set M_MMAP_THRESHOLD\n", "Okey"] ∧
        "Successfully set M_MMAP_THRESHOLD\n" ∈ appended p q ∧
        "Failed to set M_MMAP_THRESHOLD (glibc-specific)\n" ∉ appended p q) := by
  subst hr
  by_cases h : L.mallopt L.M_MMAP_THRESHOLD 65536 = 0
  · refine ⟨_, runTestMallopt_zero L p h, fun _ => ?_, fun h0 => absurd h h0⟩
    simp [appended, logStdout, cStreamPut, logCall]
  · refine ⟨_, runTestMallopt_nonzero L p h, fun h0 => absurd h0 h, fun _ => ?_⟩
    simp [appended, logStdout, cStreamPut, logCall]

/-- Witness of C1: a C library whose `mallopt` returns 0, from the fresh state. -/
theorem test_mallopt_result_line_witness :
    (constLibc (-3) 0).mallopt (constLibc (-3) 0).M_MMAP_THRESHOLD 65536 = 0 ∧
    ∃ q, runTestMallopt (constLibc (-3) 0) (initial [] []) = .ok q ∧
      ((0 : Int) = 0 →
        appended (initial [] []) q = ["Attempting to set M_MMAP_THRESHOLD in glibc...\n", "Failed to set M_MMAP_THRESHOLD (glibc-specific)\n", "Okey"] ∧
        "Failed to set M_MMAP_THRESHOLD (glibc-specific)\n" ∈ appended (initial [] []) q ∧
        "Successfully set M_MMAP_THRESHOLD\n" ∉ appended (initial [] []) q) ∧
      ((0 : Int) ≠ 0 →
        appended (initial [] []) q = ["Attempting to set M_MMAP_THRESHOLD in glibc...\n", "Successfully set M_MMAP_THRESHOLD\n", "Okey"] ∧
        "Successfully set M_MMAP_THRESHOLD\n" ∈ appended (initial [] []) q ∧
        "Failed to set M_MMAP_THRESHOLD (glibc-specific)\n" ∉ appended (initial [] []) q) :=
  ⟨by decide, test_mallopt_result_line (constLibc (-3) 0) (initial [] []) 0 (by decide)⟩

/-- C2, as stated, fails: with the stream `stdout` fully buffered (standard
output a pipe or a file) and status 1, the standard output of `main` is not the
five messages. -/
theorem stdout_lacks_printf_messages :
    ¬ ∃ result : String,
      (result = "Failed to set M_MMAP_THRESHOLD (glibc-specific)" ∨
        result = "Successfully set M_MMAP_THRESHOLD") ∧
      (outputWrites (stdioLibc Buffering.fullyBuffered (-3) 1) [] []).map message =
        ["Testing mallopt function...", "Attempting to set M_MMAP_THRESHOLD in glibc...", result,
          "Okey", "Done"] := by
  rintro ⟨result, -, h⟩
  rw [outputWrites_fullyBuffered_nonzero (stdioLibc Buffering.fullyBuffered (-3) 1) [] [] rfl (by decide)] at h
  simp at h

/-- C2, amended: `main` hands exactly five messages to its standard-output
streams, in program order: the start message, the message that names the
parameter, one result message, "Okey" and "Done".  Standard output receives
all five when the C stream `stdout` is unbuffered, the first three and "Done"
when it is line-buffered, and the start message and "Done" when it is fully
buffered. -/
theorem main_hands_five_messages (L : Libc) (args : List String) (env : List (String × String)) :
    ∃ result : String,
      (result = "Failed to set M_MMAP_THRESHOLD (glibc-specific)" ∨
        result = "Successfully set M_MMAP_THRESHOLD") ∧
      (handedWrites L args env).map message =
        ["Testing mallopt function...", "Attempting to set M_MMAP_THRESHOLD in glibc...", result,
          "Okey", "Done"] ∧
      handedWrites L args env =
        ["Testing mallopt function...\n", "Attempting to set M_MMAP_THRESHOLD in glibc...\n",
          result ++ "\n", "Okey", "Done\n"] ∧
      (outputWrites L args env).map message =
        (match L.stdoutBuffering with
          | Buffering.unbuffered =>
            ["Testing mallopt function...", "Attempting to set M_MMAP_THRESHOLD in glibc...", result,
              "Okey", "Done"]
          | Buffering.lineBuffered =>
            ["Testing mallopt function...", "Attempting to set M_MMAP_THRESHOLD in glibc...", result,
              "Done"]
          | Buffering.fullyBuffered => ["Testing mallopt function...", "Done"]) := by
  by_cases h : L.mallopt L.M_MMAP_THRESHOLD 65536 = 0
  · refine ⟨"Failed to set M_MMAP_THRESHOLD (glibc-specific)", Or.inl rfl, ?_, ?_, ?_⟩
    · rw [handedWrites_zero L args env h]
      decide
    · rw [handedWrites_zero L args env h]
      decide
    · cases hb : L.stdoutBuffering
      · rw [outputWrites_unbuffered_zero L args env hb h]
        decide
      · rw [outputWrites_lineBuffered_zero L args env hb h]
        decide
      · rw [outputWrites_fullyBuffered_zero L args env hb h]
        decide
  · refine ⟨"Successfully set M_MMAP_THRESHOLD", Or.inr rfl, ?_, ?_, ?_⟩
    · rw [handedWrites_nonzero L args env h]
      decide
    · rw [handedWrites_nonzero L args env h]
      decide
    · cases hb : L.stdoutBuffering
      · rw [outputWrites_unbuffered_nonzero L args env hb h]
        decide
      · rw [outputWrites_lineBuffered_nonzero L args env hb h]
        decide
      · rw [outputWrites_fullyBuffered_nonzero L args env hb h]
        decide

/-- C3, as stated, fails: with the stream `stdout` fully buffered and status 1,
the output of `main` does not hold exactly one occurrence of the result lines
(it holds none). -/
theorem stdout_lacks_result_line :
    ¬ ((outputWrites (stdioLibc Buffering.fullyBuffered (-3) 1) [] []).count "Successfully set M_MMAP_THRESHOLD\n" +
          (outputWrites (stdioLibc Buffering.fullyBuffered (-3) 1) [] []).count "Failed to set M_MMAP_THRESHOLD (glibc-specific)\n" = 1 ∨
        occurrences ("Failed to set M_MMAP_THRESHOLD (glibc-specific)").data (output (stdioLibc Buffering.fullyBuffered (-3) 1) [] []).data +
          occurrences ("Successfully set M_MMAP_THRESHOLD").data (output (stdioLibc Buffering.fullyBuffered (-3) 1) [] []).data = 1) := by
  rw [outputWrites_fullyBuffered_nonzero (stdioLibc Buffering.fullyBuffered (-3) 1) [] [] rfl (by decide),
    output_fullyBuffered_nonzero (stdioLibc Buffering.fullyBuffered (-3) 1) [] [] rfl (by decide)]
  decide

/-- C3, amended: the texts `main` hands to its standard-output streams hold
exactly one occurrence in total of the two result lines; the output holds
exactly one when the C stream `stdout` is unbuffered or line-buffered and none
when it is fully buffered, so never both and never the same one twice. -/
theorem main_one_result_line (L : Libc) (args : List String) (env : List (String × String)) :
    (handedWrites L args env).count "Failed to set M_MMAP_THRESHOLD (glibc-specific)\n" +
      (handedWrites L args env).count "Successfully set M_MMAP_THRESHOLD\n" = 1 ∧
    (outputWrites L args env).count "Failed to set M_MMAP_THRESHOLD (glibc-specific)\n" +
      (outputWrites L args env).count "Successfully set M_MMAP_THRESHOLD\n" =
        (match L.stdoutBuffering with
          | Buffering.unbuffered => 1
          | Buffering.lineBuffered => 1
          | Buffering.fullyBuffered => 0) ∧
    occurrences ("Failed to set M_MMAP_THRESHOLD (glibc-specific)").data (output L args env).data +
      occurrences ("Successfully set M_MMAP_THRESHOLD").data (output L args env).data =
        (match L.stdoutBuffering with
          | Buffering.unbuffered => 1
          | Buffering.lineBuffered => 1
          | Buffering.fullyBuffered => 0) := by
  by_cases h : L.mallopt L.M_MMAP_THRESHOLD 65536 = 0
  · cases hb : L.stdoutBuffering
    · rw [handedWrites_zero L args env h, outputWrites_unbuffered_zero L args env hb h,
        output_unbuffered_zero L args env hb h]
      exact ⟨by decide, by decide, by decide⟩
    · rw [handedWrites_zero L args env h, outputWrites_lineBuffered_zero L args env hb h,
        output_lineBuffered_zero L args env hb h]
      exact ⟨by decide, by decide, by decide⟩
    · rw [handedWrites_zero L args env h, outputWrites_fullyBuffered_zero L args env hb h,
        output_fullyBuffered_zero L args env hb h]
      exact ⟨by decide, by decide, by decide⟩
  · cases hb : L.stdoutBuffering
    · rw [handedWrites_nonzero L args env h, outputWrites_unbuffered_nonzero L args env hb h,
        output_unbuffered_nonzero L args env hb h]
      exact ⟨by decide, by decide, by decide⟩
    · rw [handedWrites_nonzero L args env h, outputWrites_lineBuffered_nonzero L args env hb h,
        output_lineBuffered_nonzero L args env hb h]
      exact ⟨by decide, by decide, by decide⟩
    · rw [handedWrites_nonzero L args env h, outputWrites_fullyBuffered_nonzero L args env hb h,
        output_fullyBuffered_nonzero L args env hb h]
      exact ⟨by decide, by decide, by decide⟩

/-- C4: the standard output of `main`, as one string, starts with
"Testing mallopt function..." and ends with "Done" followed by the newline of
`Println`; the last write is that of "Done". -/
theorem main_output_begins_and_ends (L : Libc) (args : List String) (env : List (String × String)) :
    ("Testing mallopt function...").data <+: (output L args env).data ∧
    ("Done\n").data <:+ (output L args env).data ∧
    (outputWrites L args env).head? = some "Testing mallopt function...\n" ∧
    (outputWrites L args env).getLast? = some ("Done" ++ "\n") ∧
    (outputWrites L args env).getLast?.map message = some "Done" := by
  by_cases h : L.mallopt L.M_MMAP_THRESHOLD 65536 = 0
  · cases hb : L.stdoutBuffering
    · rw [output_unbuffered_zero L args env hb h, outputWrites_unbuffered_zero L args env hb h]
      exact ⟨by decide, by decide, by decide, by decide, by decide⟩
    · rw [output_lineBuffered_zero L args env hb h, outputWrites_lineBuffered_zero L args env hb h]
      exact ⟨by decide, by decide, by decide, by decide, by decide⟩
    · rw [output_fullyBuffered_zero L args env hb h, outputWrites_fullyBuffered_zero L args env hb h]
      exact ⟨by decide, by decide, by decide, by decide, by decide⟩
  · cases hb : L.stdoutBuffering
    · rw [output_unbuffered_nonzero L args env hb h, outputWrites_unbuffered_nonzero L args env hb h]
      exact ⟨by decide, by decide, by decide, by decide, by decide⟩
    · rw [output_lineBuffered_nonzero L args env hb h, outputWrites_lineBuffered_nonzero L args env hb h]
      exact ⟨by decide, by decide, by decide, by decide, by decide⟩
    · rw [output_fullyBuffered_nonzero L args env hb h, outputWrites_fullyBuffered_nonzero L args env hb h]
      exact ⟨by decide, by decide, by decide, by decide, by decide⟩

/-- C5: a run of `main` calls `mallopt` exactly once, with `M_MMAP_THRESHOLD`
and 65536; the value expression `64 * 1024` is 65536 as a 32-bit C `int` and
exactly; the call comes after the message that names the parameter and before
the result message. -/
theorem main_calls_mallopt_once (L : Libc) (args : List String) (env : List (String × String)) :
    malloptCalls (runTrace L args env) = [(L.M_MMAP_THRESHOLD, 65536)] ∧
    cMul 64 1024 = 65536 ∧ (64 * 1024 : Int) = 65536 ∧
    ∃ result : String,
      (result = "Failed to set M_MMAP_THRESHOLD (glibc-specific)\n" ∨
        result = "Successfully set M_MMAP_THRESHOLD\n") ∧
      runTrace L args env =
        [Event.stdoutWrite "Testing mallopt function...\n",
          Event.stdoutWrite "Attempting to set M_MMAP_THRESHOLD in glibc...\n",
          Event.malloptCall L.M_MMAP_THRESHOLD (cMul 64 1024),
          Event.stdoutWrite result, Event.stdoutWrite "Okey",
          Event.stdoutWrite "Done\n"] := by
  by_cases h : L.mallopt L.M_MMAP_THRESHOLD 65536 = 0
  · rw [runTrace_zero L args env h]
    exact ⟨rfl, by decide, by decide, _, Or.inl rfl, by rw [cMul_64_1024]⟩
  · rw [runTrace_nonzero L args env h]
    exact ⟨rfl, by decide, by decide, _, Or.inr rfl, by rw [cMul_64_1024]⟩

/-- C6, as stated, fails: with a C library whose `mallopt` returns 1, the text
written before the call does not hold the parameter name together with
"65536" or "64". -/
theorem text_before_call_lacks_value :
    ¬ (containsText "M_MMAP_THRESHOLD"
          (textBeforeCall (runTrace (constLibc (-3) 1) [] [])) = true ∧
        (containsText "65536"
            (textBeforeCall (runTrace (constLibc (-3) 1) [] [])) = true ∨
          containsText "64"
            (textBeforeCall (runTrace (constLibc (-3) 1) [] [])) = true)) := by
  rw [runTrace_nonzero (constLibc (-3) 1) [] [] (by decide)]
  decide

/-- C6, amended: the text written before the call is the start message and the
message that names the parameter `M_MMAP_THRESHOLD`; it holds no digit, so no
target value, while the value passed to the call is 65536. -/
theorem text_before_call_names_parameter_only (L : Libc) (args : List String) (env : List (String × String)) :
    textBeforeCall (runTrace L args env) =
      "Testing mallopt function...\nAttempting to set M_MMAP_THRESHOLD in glibc...\n" ∧
    containsText "M_MMAP_THRESHOLD" (textBeforeCall (runTrace L args env)) = true ∧
    (∀ c ∈ (textBeforeCall (runTrace L args env)).data, c.isDigit = false) ∧
    malloptCalls (runTrace L args env) = [(L.M_MMAP_THRESHOLD, 65536)] := by
  by_cases h : L.mallopt L.M_MMAP_THRESHOLD 65536 = 0
  · rw [runTrace_zero L args env h]
    refine ⟨rfl, ?_, ?_, rfl⟩
    · exact (by decide : containsText "M_MMAP_THRESHOLD"
        "Testing mallopt function...\nAttempting to set M_MMAP_THRESHOLD in glibc...\n" = true)
    · exact (by decide : ∀ c ∈
        ("Testing mallopt function...\nAttempting to set M_MMAP_THRESHOLD in glibc...\n").data,
        c.isDigit = false)
  · rw [runTrace_nonzero L args env h]
    refine ⟨rfl, ?_, ?_, rfl⟩
    · exact (by decide : containsText "M_MMAP_THRESHOLD"
        "Testing mallopt function...\nAttempting to set M_MMAP_THRESHOLD in glibc...\n" = true)
    · exact (by decide : ∀ c ∈
        ("Testing mallopt function...\nAttempting to set M_MMAP_THRESHOLD in glibc...\n").data,
        c.isDigit = false)

/-- C7: `main` runs to completion from every state and with every C library,
and the exit status is 0: the run is a normal return whose last write is that
of "Done", in the failure branch and in the success branch; "Done" is also the
last write that reaches file descriptor 1. -/
theorem main_exits_zero (L : Libc) (p : Process) :
    exitStatus (runMain L p) = 0 ∧
    ∃ q, runMain L p = .ok q ∧ q.stdout.getLast? = some "Done\n" ∧
      q.trace.getLast? = some (Event.stdoutWrite "Done\n") ∧
      q.fd1.getLast? = some "Done\n" := by
  by_cases h : L.mallopt L.M_MMAP_THRESHOLD 65536 = 0
  · rw [runMain_zero L p h]
    exact ⟨rfl, _, rfl, by simp [fdWrite, logStdout], by simp [fdWrite, logStdout],
      by simp [fdWrite]⟩
  · rw [runMain_nonzero L p h]
    exact ⟨rfl, _, rfl, by simp [fdWrite, logStdout], by simp [fdWrite, logStdout],
      by simp [fdWrite]⟩

/-- C8: a run of `main` only appends to standard output: standard error, the
arguments and the environment are unchanged; two runs whose tuning calls
return the same status hand the same texts to standard output, whatever their
arguments, environments and earlier states are.  What had reached file
descriptor 1 stays, and with the same buffering of the C stream the writes
that reach it in a fresh run are the same for all arguments and environments. -/
theorem main_writes_stdout_only (L1 L2 : Libc) (p1 p2 : Process)
    (hr : L1.mallopt L1.M_MMAP_THRESHOLD 65536 = L2.mallopt L2.M_MMAP_THRESHOLD 65536) :
    ∃ q1 q2, runMain L1 p1 = .ok q1 ∧ runMain L2 p2 = .ok q2 ∧
      q1.stderr = p1.stderr ∧ q1.args = p1.args ∧ q1.env = p1.env ∧
      q1.stdout = p1.stdout ++ appended p1 q1 ∧
      appended p1 q1 = appended p2 q2 ∧
      p1.fd1 <+: q1.fd1 ∧
      (L1.stdoutBuffering = L2.stdoutBuffering →
        ∀ (args1 args2 : List String) (env1 env2 : List (String × String)),
          outputWrites L1 args1 env1 = outputWrites L2 args2 env2) := by
  by_cases h : L1.mallopt L1.M_MMAP_THRESHOLD 65536 = 0
  · have h2 : L2.mallopt L2.M_MMAP_THRESHOLD 65536 = 0 := hr ▸ h
    refine ⟨_, _, runMain_zero L1 p1 h, runMain_zero L2 p2 h2, rfl, rfl, rfl, ?_, ?_, ?_, ?_⟩
    · simp [appended, logStdout, fdWrite, cStreamPut, logCall]
    · simp [appended, logStdout, fdWrite, cStreamPut, logCall]
    · exact main_steps_fd1 _ _ _ _ _ _ _ _ _
    · intro hb args1 args2 env1 env2
      cases hb1 : L1.stdoutBuffering
      · rw [outputWrites_unbuffered_zero L1 args1 env1 hb1 h,
          outputWrites_unbuffered_zero L2 args2 env2 (hb.symm.trans hb1) h2]
      · rw [outputWrites_lineBuffered_zero L1 args1 env1 hb1 h,
          outputWrites_lineBuffered_zero L2 args2 env2 (hb.symm.trans hb1) h2]
      · rw [outputWrites_fullyBuffered_zero L1 args1 env1 hb1 h,
          outputWrites_fullyBuffered_zero L2 args2 env2 (hb.symm.trans hb1) h2]
  · have h2 : L2.mallopt L2.M_MMAP_THRESHOLD 65536 ≠ 0 := hr ▸ h
    refine ⟨_, _, runMain_nonzero L1 p1 h, runMain_nonzero L2 p2 h2, rfl, rfl, rfl, ?_, ?_, ?_, ?_⟩
    · simp [appended, logStdout, fdWrite, cStreamPut, logCall]
    · simp [appended, logStdout, fdWrite, cStreamPut, logCall]
    · exact main_steps_fd1 _ _ _ _ _ _ _ _ _
    · intro hb args1 args2 env1 env2
      cases hb1 : L1.stdoutBuffering
      · rw [outputWrites_unbuffered_nonzero L1 args1 env1 hb1 h,
          outputWrites_unbuffered_nonzero L2 args2 env2 (hb.symm.trans hb1) h2]
      · rw [outputWrites_lineBuffered_nonzero L1 args1 env1 hb1 h,
          outputWrites_lineBuffered_nonzero L2 args2 env2 (hb.symm.trans hb1) h2]
      · rw [outputWrites_fullyBuffered_nonzero L1 args1 env1 hb1 h,
          outputWrites_fullyBuffered_nonzero L2 args2 env2 (hb.symm.trans hb1) h2]

/-- Witness of C8: two runs with status 1 whose arguments, environments and
earlier standard errors differ. -/
theorem main_writes_stdout_only_witness :
    (constLibc (-3) 1).mallopt (constLibc (-3) 1).M_MMAP_THRESHOLD 65536 =
      (constLibc 7 1).mallopt (constLibc 7 1).M_MMAP_THRESHOLD 65536 ∧
    ∃ q1 q2,
      runMain (constLibc (-3) 1) (Process.mk [] ["warn"] ["-v"] [("HOME", "/root")] [] [] "") = .ok q1 ∧
      runMain (constLibc 7 1) (initial [] []) = .ok q2 ∧
      q1.stderr = (Process.mk [] ["warn"] ["-v"] [("HOME", "/root")] [] [] "").stderr ∧
      q1.args = (Process.mk [] ["warn"] ["-v"] [("HOME", "/root")] [] [] "").args ∧
      q1.env = (Process.mk [] ["warn"] ["-v"] [("HOME", "/root")] [] [] "").env ∧
      q1.stdout = (Process.mk [] ["warn"] ["-v"] [("HOME", "/root")] [] [] "").stdout ++
        appended (Process.mk [] ["warn"] ["-v"] [("HOME", "/root")] [] [] "") q1 ∧
      appended (Process.mk [] ["warn"] ["-v"] [("HOME", "/root")] [] [] "") q1 =
        appended (initial [] []) q2 ∧
      (Process.mk [] ["warn"] ["-v"] [("HOME", "/root")] [] [] "").fd1 <+: q1.fd1 ∧
      ((constLibc (-3) 1).stdoutBuffering = (constLibc 7 1).stdoutBuffering →
        ∀ (args1 args2 : List String) (env1 env2 : List (String × String)),
          outputWrites (constLibc (-3) 1) args1 env1 =
            outputWrites (constLibc 7 1) args2 env2) :=
  ⟨by decide, main_writes_stdout_only (constLibc (-3) 1) (constLibc 7 1)
    (Process.mk [] ["warn"] ["-v"] [("HOME", "/root")] [] [] "") (initial [] []) (by decide)⟩

/-- C9, as stated, fails: with the stream `stdout` line-buffered (standard
output a terminal) and status 1, the last line of the output is not
"OkeyDone" and a line of it is "Done". -/
theorem last_line_is_done_on_terminal :
    ¬ ((terminatedLines (output (stdioLibc Buffering.lineBuffered (-3) 1) [] [])).length = 4 ∧
        (terminatedLines (output (stdioLibc Buffering.lineBuffered (-3) 1) [] [])).getLast? = some "OkeyDone" ∧
        "Done" ∉ terminatedLines (output (stdioLibc Buffering.lineBuffered (-3) 1) [] []) ∧
        "Okey" ∉ terminatedLines (output (stdioLibc Buffering.lineBuffered (-3) 1) [] [])) := by
  rw [output_lineBuffered_nonzero (stdioLibc Buffering.lineBuffered (-3) 1) [] [] rfl (by decide)]
  decide

/-- C9, amended: "Okey" is handed to the C stream without a line terminator
while every other text ends with a newline.  When the C stream `stdout` is
unbuffered the output has exactly four newline-terminated lines, the last of
them is "OkeyDone", and no line is "Done" or "Okey".  When the stream is
line-buffered or fully buffered "Okey" does not reach the output, whose last
line is then "Done" (of four lines, of two lines).  The output never has a
line "Okey" and never ends without a newline. -/
theorem okey_has_no_line_terminator (L : Libc) (args : List String) (env : List (String × String)) :
    "Okey" ∈ handedWrites L args env ∧
    (∀ w ∈ handedWrites L args env, w ≠ "Okey" → w.data.getLast? = some '\n') ∧
    (terminatedLines (output L args env)).length =
      (match L.stdoutBuffering with
        | Buffering.unbuffered => 4
        | Buffering.lineBuffered => 4
        | Buffering.fullyBuffered => 2) ∧
    (terminatedLines (output L args env)).getLast? =
      (match L.stdoutBuffering with
        | Buffering.unbuffered => some "OkeyDone"
        | Buffering.lineBuffered => some "Done"
        | Buffering.fullyBuffered => some "Done") ∧
    decide ("Done" ∈ terminatedLines (output L args env)) =
      (match L.stdoutBuffering with
        | Buffering.unbuffered => false
        | Buffering.lineBuffered => true
        | Buffering.fullyBuffered => true) ∧
    "Okey" ∉ terminatedLines (output L args env) ∧
    unterminatedTail (output L args env) = "" := by
  by_cases h : L.mallopt L.M_MMAP_THRESHOLD 65536 = 0
  · cases hb : L.stdoutBuffering
    · rw [handedWrites_zero L args env h, output_unbuffered_zero L args env hb h]
      exact ⟨by decide, by decide, by decide, by decide, by decide, by decide, by decide⟩
    · rw [handedWrites_zero L args env h, output_lineBuffered_zero L args env hb h]
      exact ⟨by decide, by decide, by decide, by decide, by decide, by decide, by decide⟩
    · rw [handedWrites_zero L args env h, output_fullyBuffered_zero L args env hb h]
      exact ⟨by decide, by decide, by decide, by decide, by decide, by decide, by decide⟩
  · cases hb : L.stdoutBuffering
    · rw [handedWrites_nonzero L args env h, output_unbuffered_nonzero L args env hb h]
      exact ⟨by decide, by decide, by decide, by decide, by decide, by decide, by decide⟩
    · rw [handedWrites_nonzero L args env h, output_lineBuffered_nonzero L args env hb h]
      exact ⟨by decide, by decide, by decide, by decide, by decide, by decide, by decide⟩
    · rw [handedWrites_nonzero L args env h, output_fullyBuffered_nonzero L args env hb h]
      exact ⟨by decide, by decide, by decide, by decide, by decide, by decide, by decide⟩

/-- C10, as stated, fails: with the stream `stdout` fully buffered the output
for status 0 does not differ from the output for status 1, in the result line
or elsewhere. -/
theorem fully_buffered_output_ignores_status :
    ¬ ((outputWrites (stdioLibc Buffering.fullyBuffered (-3) 0) [] [])[2]? =
          some "Failed to set M_MMAP_THRESHOLD (glibc-specific)\n" ∧
        (outputWrites (stdioLibc Buffering.fullyBuffered (-3) 1) [] [])[2]? =
          some "Successfully set M_MMAP_THRESHOLD\n" ∧
        outputWrites (stdioLibc Buffering.fullyBuffered (-3) 0) [] [] ≠
          outputWrites (stdioLibc Buffering.fullyBuffered (-3) 1) [] []) := by
  rw [outputWrites_fullyBuffered_zero (stdioLibc Buffering.fullyBuffered (-3) 0) [] [] rfl (by decide),
    outputWrites_fullyBuffered_nonzero (stdioLibc Buffering.fullyBuffered (-3) 1) [] [] rfl (by decide)]
  decide

/-- C10, amended: with the same buffering of the C stream, two runs with
non-zero statuses write the same output.  The texts that a run with status
zero hands to standard output differ from theirs in the result line (the third
text) and in nothing else; the outputs differ in the third write at most: in
that write alone when the stream is unbuffered or line-buffered, and not at
all when it is fully buffered, where no result line reaches the output. -/
theorem output_differs_in_result_line_at_most (L0 L1 L2 : Libc) (args : List String) (env : List (String × String))
    (h0 : L0.mallopt L0.M_MMAP_THRESHOLD 65536 = 0)
    (h1 : L1.mallopt L1.M_MMAP_THRESHOLD 65536 ≠ 0)
    (h2 : L2.mallopt L2.M_MMAP_THRESHOLD 65536 ≠ 0)
    (hb1 : L1.stdoutBuffering = L0.stdoutBuffering)
    (hb2 : L2.stdoutBuffering = L0.stdoutBuffering) :
    outputWrites L1 args env = outputWrites L2 args env ∧
    output L1 args env = output L2 args env ∧
    (handedWrites L0 args env).length = (handedWrites L1 args env).length ∧
    (∀ i : Nat, i ≠ 2 → (handedWrites L0 args env)[i]? = (handedWrites L1 args env)[i]?) ∧
    (handedWrites L0 args env)[2]? = some "Failed to set M_MMAP_THRESHOLD (glibc-specific)\n" ∧
    (handedWrites L1 args env)[2]? = some "Successfully set M_MMAP_THRESHOLD\n" ∧
    (outputWrites L0 args env).length = (outputWrites L1 args env).length ∧
    (∀ i : Nat, i ≠ 2 → (outputWrites L0 args env)[i]? = (outputWrites L1 args env)[i]?) ∧
    (outputWrites L0 args env)[2]? =
      (match L0.stdoutBuffering with
        | Buffering.unbuffered => some "Failed to set M_MMAP_THRESHOLD (glibc-specific)\n"
        | Buffering.lineBuffered => some "Failed to set M_MMAP_THRESHOLD (glibc-specific)\n"
        | Buffering.fullyBuffered => none) ∧
    (outputWrites L1 args env)[2]? =
      (match L0.stdoutBuffering with
        | Buffering.unbuffered => some "Successfully set M_MMAP_THRESHOLD\n"
        | Buffering.lineBuffered => some "Successfully set M_MMAP_THRESHOLD\n"
        | Buffering.fullyBuffered => none) := by
  have hand : ∀ i : Nat, i ≠ 2 →
      ["Testing mallopt function...\n", "Attempting to set M_MMAP_THRESHOLD in glibc...\n",
        "Failed to set M_MMAP_THRESHOLD (glibc-specific)\n", "Okey", "Done\n"][i]? =
      ["Testing mallopt function...\n", "Attempting to set M_MMAP_THRESHOLD in glibc...\n",
        "Successfully set M_MMAP_THRESHOLD\n", "Okey", "Done\n"][i]? := by
    intro i hi
    match i, hi with
    | 0, _ => rfl
    | 1, _ => rfl
    | 2, hi => exact absurd rfl hi
    | _ + 3, _ => rfl
  have line : ∀ i : Nat, i ≠ 2 →
      ["Testing mallopt function...\n", "Attempting to set M_MMAP_THRESHOLD in glibc...\n",
        "Failed to set M_MMAP_THRESHOLD (glibc-specific)\n", "Done\n"][i]? =
      ["Testing mallopt function...\n", "Attempting to set M_MMAP_THRESHOLD in glibc...\n",
        "Successfully set M_MMAP_THRESHOLD\n", "Done\n"][i]? := by
    intro i hi
    match i, hi with
    | 0, _ => rfl
    | 1, _ => rfl
    | 2, hi => exact absurd rfl hi
    | _ + 3, _ => rfl
  rw [output, output, handedWrites_zero L0 args env h0, handedWrites_nonzero L1 args env h1]
  cases hb : L0.stdoutBuffering
  · rw [outputWrites_unbuffered_zero L0 args env hb h0,
      outputWrites_unbuffered_nonzero L1 args env (hb1.trans hb) h1,
      outputWrites_unbuffered_nonzero L2 args env (hb2.trans hb) h2]
    exact ⟨rfl, rfl, rfl, hand, rfl, rfl, rfl, hand, rfl, rfl⟩
  · rw [outputWrites_lineBuffered_zero L0 args env hb h0,
      outputWrites_lineBuffered_nonzero L1 args env (hb1.trans hb) h1,
      outputWrites_lineBuffered_nonzero L2 args env (hb2.trans hb) h2]
    exact ⟨rfl, rfl, rfl, hand, rfl, rfl, rfl, line, rfl, rfl⟩
  · rw [outputWrites_fullyBuffered_zero L0 args env hb h0,
      outputWrites_fullyBuffered_nonzero L1 args env (hb1.trans hb) h1,
      outputWrites_fullyBuffered_nonzero L2 args env (hb2.trans hb) h2]
    exact ⟨rfl, rfl, rfl, hand, rfl, rfl, rfl, fun _ _ => rfl, rfl, rfl⟩

/-- Witness of C10: the statuses 0, 1 and -1 on a terminal (stream `stdout`
line-buffered). -/
theorem output_differs_in_result_line_at_most_witness :
    (stdioLibc Buffering.lineBuffered (-3) 0).mallopt (stdioLibc Buffering.lineBuffered (-3) 0).M_MMAP_THRESHOLD 65536 = 0 ∧
    (stdioLibc Buffering.lineBuffered (-3) 1).mallopt (stdioLibc Buffering.lineBuffered (-3) 1).M_MMAP_THRESHOLD 65536 ≠ 0 ∧
    (stdioLibc Buffering.lineBuffered (-3) (-1)).mallopt (stdioLibc Buffering.lineBuffered (-3) (-1)).M_MMAP_THRESHOLD 65536 ≠ 0 ∧
    (stdioLibc Buffering.lineBuffered (-3) 1).stdoutBuffering = (stdioLibc Buffering.lineBuffered (-3) 0).stdoutBuffering ∧
    (stdioLibc Buffering.lineBuffered (-3) (-1)).stdoutBuffering = (stdioLibc Buffering.lineBuffered (-3) 0).stdoutBuffering ∧
    outputWrites (stdioLibc Buffering.lineBuffered (-3) 1) [] [] = outputWrites (stdioLibc Buffering.lineBuffered (-3) (-1)) [] [] ∧
    output (stdioLibc Buffering.lineBuffered (-3) 1) [] [] = output (stdioLibc Buffering.lineBuffered (-3) (-1)) [] [] ∧
    (handedWrites (stdioLibc Buffering.lineBuffered (-3) 0) [] []).length = (handedWrites (stdioLibc Buffering.lineBuffered (-3) 1) [] []).length ∧
    (∀ i : Nat, i ≠ 2 →
      (handedWrites (stdioLibc Buffering.lineBuffered (-3) 0) [] [])[i]? = (handedWrites (stdioLibc Buffering.lineBuffered (-3) 1) [] [])[i]?) ∧
    (handedWrites (stdioLibc Buffering.lineBuffered (-3) 0) [] [])[2]? = some "Failed to set M_MMAP_THRESHOLD (glibc-specific)\n" ∧
    (handedWrites (stdioLibc Buffering.lineBuffered (-3) 1) [] [])[2]? = some "Successfully set M_MMAP_THRESHOLD\n" ∧
    (outputWrites (stdioLibc Buffering.lineBuffered (-3) 0) [] []).length = (outputWrites (stdioLibc Buffering.lineBuffered (-3) 1) [] []).length ∧
    (∀ i : Nat, i ≠ 2 →
      (outputWrites (stdioLibc Buffering.lineBuffered (-3) 0) [] [])[i]? = (outputWrites (stdioLibc Buffering.lineBuffered (-3) 1) [] [])[i]?) ∧
    (outputWrites (stdioLibc Buffering.lineBuffered (-3) 0) [] [])[2]? =
      (match (stdioLibc Buffering.lineBuffered (-3) 0).stdoutBuffering with
        | Buffering.unbuffered => some "Failed to set M_MMAP_THRESHOLD (glibc-specific)\n"
        | Buffering.lineBuffered => some "Failed to set M_MMAP_THRESHOLD (glibc-specific)\n"
        | Buffering.fullyBuffered => none) ∧
    (outputWrites (stdioLibc Buffering.lineBuffered (-3) 1) [] [])[2]? =
      (match (stdioLibc Buffering.lineBuffered (-3) 0).stdoutBuffering with
        | Buffering.unbuffered => some "Successfully set M_MMAP_THRESHOLD\n"
        | Buffering.lineBuffered => some "Successfully set M_MMAP_THRESHOLD\n"
        | Buffering.fullyBuffered => none) :=
  ⟨by decide, by decide, by decide, rfl, rfl,
    output_differs_in_result_line_at_most (stdioLibc Buffering.lineBuffered (-3) 0) (stdioLibc Buffering.lineBuffered (-3) 1) (stdioLibc Buffering.lineBuffered (-3) (-1)) [] []
      (by decide) (by decide) (by decide) rfl rfl⟩

end AlpineGlibc
